import Mathlib

/-!
Verification of the todoist-mcp repository's credential lifecycle and
provider-gateway argument shaping, as a shallow embedding in Lean 4.

The embedding follows `src/src/nango-auth.ts` and the tool handlers of the
server module.  Conventions used throughout:

* Timestamps are modelled as `Int` epoch milliseconds.  The source parses
  `expires_at` (an RFC3339 string) with `new Date(...)`; we model the field
  as the already-parsed epoch-millisecond value, `Option Int` because the
  JSON field is optional.
* JavaScript truthiness on optional strings (`if (params.x)`) is modelled by
  `strTruthy`: the field is present and non-empty.  Truthiness on optional
  numbers is `numTruthy`: present and non-zero.  Truthiness on optional
  arrays/objects is `Option.isSome` (any array or object is truthy).
* The broker (Nango) is external: one HTTP round trip is modelled by a
  `BrokerResult` value, and a sequence of round trips by `Nat → BrokerResult`
  indexed by the number of broker calls already made.
* Network activity is made observable as a list of `Event`s so that claims
  about call counts and call ordering can be stated.
* The source throws untyped `Error`s with distinct messages; the spec's error
  taxonomy maps each message to a typed error.  We use `AuthError` with one
  constructor per distinct failure message of the auth module.
-/

/-- Process configuration, from the four `NANGO_*` environment variables.
`none` models an unset variable; `some ""` models a set-but-empty one.
Both are falsy in `process.env` checks. -/
structure NangoConfig where
  connectionId : Option String
  integrationId : Option String
  baseUrl : Option String
  secretKey : Option String
deriving DecidableEq

/-- JavaScript truthiness of an optional environment/string value:
present and non-empty. -/
def strTruthy : Option String → Bool
  | none => false
  | some s => !s.isEmpty

/-- The guard of `getConnectionCredentials`:
`!connectionId || !integrationId || !baseUrl || !secretKey` negated. -/
def validConfig (cfg : NangoConfig) : Bool :=
  strTruthy cfg.connectionId && strTruthy cfg.integrationId &&
    strTruthy cfg.baseUrl && strTruthy cfg.secretKey

/-- The inner `credentials` object of a Nango response.  `access_token` is
declared required in the TypeScript interface but the runtime JSON may lack
it (hence the check in `getAccessToken`), so it is `Option String` here.
`expires_at` is the parsed epoch-millisecond timestamp. -/
structure CredentialsInner where
  access_token : Option String
  refresh_token : Option String := none
  expires_at : Option Int := none
deriving DecidableEq

/-- A Nango credentials response (`NangoCredentials` in the source). -/
structure NangoCredentials where
  credentials : CredentialsInner
  connectionId : String := ""
  providerConfigKey : String := ""
deriving DecidableEq

/-- Outcome of one HTTP round trip to the broker: network-level failure,
non-ok HTTP status, or a parsed JSON body. -/
inductive BrokerResult where
  | transportFail : BrokerResult
  | httpError : Nat → String → BrokerResult
  | ok : NangoCredentials → BrokerResult
deriving DecidableEq

/-- Typed rendering of the auth module's distinct failure messages
(the spec's error taxonomy §7). -/
inductive AuthError where
  /-- "Missing required Nango environment variables: ..." -/
  | configurationError : AuthError
  /-- "Failed to get connection credentials: status statusText - body" -/
  | brokerRequestError : Nat → String → AuthError
  /-- the `fetch` promise itself rejected (network-level failure) -/
  | transportError : AuthError
  /-- "Access token not found in Nango credentials" -/
  | missingTokenError : AuthError
deriving DecidableEq

/-- Observable network events: a round trip to the broker, or a direct
bearer-authenticated request to the Todoist REST API (bearer, url). -/
inductive Event where
  | brokerFetch : Event
  | apiRequest : Option String → String → Event
deriving DecidableEq

/-- An MCP tool handler's result: the single text content item and the
`isError` flag (absent `isError` in the source means `false`). -/
structure ToolResult where
  text : String
  isError : Bool
deriving DecidableEq

/-- `JSON.stringify(\x7b success: true \x7d, null, 2)`,
the success payload of the mutation-style bypass tools. -/
def successTrue : String := "\x7b\n  \"success\": true\n\x7d"

/-- `getConnectionCredentials` of `nango-auth.ts`: validates the four
configuration values before any network call, then performs exactly one
broker round trip (which always carries `refresh_token=true`).  Returns the
result together with the network events performed. -/
def getConnectionCredentials (cfg : NangoConfig) (resp : BrokerResult) :
    Except AuthError NangoCredentials × List Event :=
  if !validConfig cfg then
    (Except.error AuthError.configurationError, [])
  else
    match resp with
    | BrokerResult.transportFail =>
        (Except.error AuthError.transportError, [Event.brokerFetch])
    | BrokerResult.httpError status body =>
        (Except.error (AuthError.brokerRequestError status body), [Event.brokerFetch])
    | BrokerResult.ok c =>
        (Except.ok c, [Event.brokerFetch])

/-- `getAccessToken` of `nango-auth.ts`: fetch credentials, then the falsy
check `if (!accessToken)` fails both when the field is absent and when it is
the empty string. -/
def getAccessToken (cfg : NangoConfig) (resp : BrokerResult) :
    Except AuthError String × List Event :=
  match getConnectionCredentials cfg resp with
  | (Except.error e, evts) => (Except.error e, evts)
  | (Except.ok c, evts) =>
      match c.credentials.access_token with
      | none => (Except.error AuthError.missingTokenError, evts)
      | some t =>
          if t.isEmpty then (Except.error AuthError.missingTokenError, evts)
          else (Except.ok t, evts)

/-- `bufferTime` of `isTokenExpired`: 5 minutes in milliseconds. -/
def bufferTime : Int := 5 * 60 * 1000

/-- `isTokenExpired` of `nango-auth.ts`: false when `expires_at` is absent;
otherwise `(expiresAt.getTime() - now.getTime()) < bufferTime`. -/
def isTokenExpired (c : NangoCredentials) (now : Int) : Bool :=
  match c.credentials.expires_at with
  | none => false
  | some expiresAt => decide (expiresAt - now < bufferTime)

/-- `refreshTokenIfNeeded` of `nango-auth.ts`: fetch credentials; if they are
(near-)expired, fetch a second time and return the new token, else return the
token already fetched.  `resp k` is the broker's answer to the `(k+1)`-th
broker call of the process; `n` is the number of broker calls already made.
Returns (result, events of this invocation, updated call count). -/
def refreshTokenIfNeeded (cfg : NangoConfig) (resp : Nat → BrokerResult)
    (now : Int) (n : Nat) :
    Except AuthError (Option String) × List Event × Nat :=
  match getConnectionCredentials cfg (resp n) with
  | (Except.error e, evts) => (Except.error e, evts, n + evts.length)
  | (Except.ok c, evts) =>
      if isTokenExpired c now then
        match getConnectionCredentials cfg (resp (n + evts.length)) with
        | (Except.error e, evts2) =>
            (Except.error e, evts ++ evts2, n + evts.length + evts2.length)
        | (Except.ok c2, evts2) =>
            (Except.ok c2.credentials.access_token, evts ++ evts2,
              n + evts.length + evts2.length)
      else
        (Except.ok c.credentials.access_token, evts, n + evts.length)

/-- JavaScript truthiness of an optional number (`if (params.x)`):
present and non-zero. -/
def numTruthy : Option Int → Bool
  | none => false
  | some x => decide (x ≠ 0)

/-- Input of the `createTask` tool.  `content` is the only required field.
`description` appears in the handler's copying code although the declared
schema does not list it; it is kept here to mirror the handler. -/
structure CreateTaskParams where
  content : String
  projectId : Option String := none
  dueString : Option String := none
  priority : Option Int := none
  labels : Option (List String) := none
  description : Option String := none
  order : Option Int := none
  parentId : Option String := none
  sectionId : Option String := none
  assigneeId : Option String := none
  dueLang : Option String := none
  dueDate : Option String := none
  dueDatetime : Option String := none
deriving DecidableEq

/-- Input of the `updateTask` tool, after `taskId` is split off. -/
structure UpdateTaskParams where
  content : Option String := none
  description : Option String := none
  labels : Option (List String) := none
  priority : Option Int := none
  dueString : Option String := none
  dueLang : Option String := none
  dueDate : Option String := none
  dueDatetime : Option String := none
  assigneeId : Option String := none
deriving DecidableEq

/-- The outgoing argument object (`taskArgs`) of createTask/updateTask.
A `none` field is absent from the JavaScript object (omitted, not null). -/
structure TaskArgs where
  content : Option String := none
  projectId : Option String := none
  dueString : Option String := none
  priority : Option Int := none
  labels : Option (List String) := none
  description : Option String := none
  order : Option Int := none
  parentId : Option String := none
  sectionId : Option String := none
  assigneeId : Option String := none
  dueLang : Option String := none
  dueDate : Option String := none
  dueDatetime : Option String := none
deriving DecidableEq

/-- Argument shaping of the `createTask` handler: `content` always copied,
each optional field copied under its truthiness guard in source order, then
the due-date if/else-if chain (which re-assigns `dueString` when truthy). -/
def createTaskArgs (p : CreateTaskParams) : TaskArgs :=
  let a : TaskArgs := { content := some p.content }
  let a := if strTruthy p.projectId then { a with projectId := p.projectId } else a
  let a := if strTruthy p.dueString then { a with dueString := p.dueString } else a
  let a := if numTruthy p.priority then { a with priority := p.priority } else a
  let a := if p.labels.isSome then { a with labels := p.labels } else a
  let a := if strTruthy p.description then { a with description := p.description } else a
  let a := if numTruthy p.order then { a with order := p.order } else a
  let a := if strTruthy p.parentId then { a with parentId := p.parentId } else a
  let a := if strTruthy p.sectionId then { a with sectionId := p.sectionId } else a
  let a := if strTruthy p.assigneeId then { a with assigneeId := p.assigneeId } else a
  let a := if strTruthy p.dueLang then { a with dueLang := p.dueLang } else a
  let a :=
    if strTruthy p.dueString then { a with dueString := p.dueString }
    else if strTruthy p.dueDate then { a with dueDate := p.dueDate }
    else if strTruthy p.dueDatetime then { a with dueDatetime := p.dueDatetime }
    else a
  a

/-- Argument shaping of the `updateTask` handler.  Note the `assigneeId`
copy uses a presence check (`'assigneeId' in updateParams`), not a
truthiness check, so a falsy value is still forwarded. -/
def updateTaskArgs (p : UpdateTaskParams) : TaskArgs :=
  let a : TaskArgs := {}
  let a := if strTruthy p.content then { a with content := p.content } else a
  let a := if strTruthy p.description then { a with description := p.description } else a
  let a := if p.labels.isSome then { a with labels := p.labels } else a
  let a := if numTruthy p.priority then { a with priority := p.priority } else a
  let a := if p.assigneeId.isSome then { a with assigneeId := p.assigneeId } else a
  let a := if strTruthy p.dueLang then { a with dueLang := p.dueLang } else a
  let a :=
    if strTruthy p.dueString then { a with dueString := p.dueString }
    else if strTruthy p.dueDate then { a with dueDate := p.dueDate }
    else if strTruthy p.dueDatetime then { a with dueDatetime := p.dueDatetime }
    else a
  a

/-- How many of the three due-date representations the outgoing object
carries. -/
def dueFieldCount (a : TaskArgs) : Nat :=
  (if a.dueString.isSome then 1 else 0) +
    (if a.dueDate.isSome then 1 else 0) +
    (if a.dueDatetime.isSome then 1 else 0)

/-- The outgoing `dueString` of createTask is the input's when truthy,
absent otherwise. -/
lemma createTaskArgs_dueString (p : CreateTaskParams) :
    (createTaskArgs p).dueString =
      if strTruthy p.dueString then p.dueString else none := by
  cases h1 : strTruthy p.dueString <;> cases h2 : strTruthy p.dueDate <;>
    cases h3 : strTruthy p.dueDatetime <;>
      simp [createTaskArgs, h1, h2, h3, apply_ite TaskArgs.dueString]

/-- The outgoing `dueDate` of createTask is the input's only when
`dueString` is not truthy and `dueDate` is. -/
lemma createTaskArgs_dueDate (p : CreateTaskParams) :
    (createTaskArgs p).dueDate =
      if strTruthy p.dueString then none
      else if strTruthy p.dueDate then p.dueDate else none := by
  cases h1 : strTruthy p.dueString <;> cases h2 : strTruthy p.dueDate <;>
    cases h3 : strTruthy p.dueDatetime <;>
      simp [createTaskArgs, h1, h2, h3, apply_ite TaskArgs.dueDate]

/-- The outgoing `dueDatetime` of createTask is the input's only when
neither `dueString` nor `dueDate` is truthy and `dueDatetime` is. -/
lemma createTaskArgs_dueDatetime (p : CreateTaskParams) :
    (createTaskArgs p).dueDatetime =
      if strTruthy p.dueString then none
      else if strTruthy p.dueDate then none
      else if strTruthy p.dueDatetime then p.dueDatetime else none := by
  cases h1 : strTruthy p.dueString <;> cases h2 : strTruthy p.dueDate <;>
    cases h3 : strTruthy p.dueDatetime <;>
      simp [createTaskArgs, h1, h2, h3, apply_ite TaskArgs.dueDatetime]

/-- The outgoing `dueString` of updateTask. -/
lemma updateTaskArgs_dueString (p : UpdateTaskParams) :
    (updateTaskArgs p).dueString =
      if strTruthy p.dueString then p.dueString else none := by
  cases h1 : strTruthy p.dueString <;> cases h2 : strTruthy p.dueDate <;>
    cases h3 : strTruthy p.dueDatetime <;>
      simp [updateTaskArgs, h1, h2, h3, apply_ite TaskArgs.dueString]

/-- The outgoing `dueDate` of updateTask. -/
lemma updateTaskArgs_dueDate (p : UpdateTaskParams) :
    (updateTaskArgs p).dueDate =
      if strTruthy p.dueString then none
      else if strTruthy p.dueDate then p.dueDate else none := by
  cases h1 : strTruthy p.dueString <;> cases h2 : strTruthy p.dueDate <;>
    cases h3 : strTruthy p.dueDatetime <;>
      simp [updateTaskArgs, h1, h2, h3, apply_ite TaskArgs.dueDate]

/-- The outgoing `dueDatetime` of updateTask. -/
lemma updateTaskArgs_dueDatetime (p : UpdateTaskParams) :
    (updateTaskArgs p).dueDatetime =
      if strTruthy p.dueString then none
      else if strTruthy p.dueDate then none
      else if strTruthy p.dueDatetime then p.dueDatetime else none := by
  cases h1 : strTruthy p.dueString <;> cases h2 : strTruthy p.dueDate <;>
    cases h3 : strTruthy p.dueDatetime <;>
      simp [updateTaskArgs, h1, h2, h3, apply_ite TaskArgs.dueDatetime]

/-- A truthy optional string is present. -/
lemma strTruthy_isSome {o : Option String} (h : strTruthy o = true) :
    o.isSome = true := by
  cases o <;> simp_all [strTruthy]

/-- The outgoing `assigneeId` of createTask: copied only under a
truthiness guard. -/
lemma createTaskArgs_assigneeId (p : CreateTaskParams) :
    (createTaskArgs p).assigneeId =
      if strTruthy p.assigneeId then p.assigneeId else none := by
  cases h : strTruthy p.assigneeId <;>
    simp [createTaskArgs, h, apply_ite TaskArgs.assigneeId]

/-- The outgoing `assigneeId` of updateTask: copied under a presence
check. -/
lemma updateTaskArgs_assigneeId (q : UpdateTaskParams) :
    (updateTaskArgs q).assigneeId =
      if q.assigneeId.isSome then q.assigneeId else none := by
  cases h : q.assigneeId.isSome <;>
    simp [updateTaskArgs, h, apply_ite TaskArgs.assigneeId]

/-- C6: createTask and updateTask forward at most one due-date
representation, first-match-wins with priority `dueString`, then `dueDate`,
then `dueDatetime`; in particular a truthy `dueString` suppresses both other
forms, so an input with both `dueString` and `dueDate` forwards only the
natural-language form, and the representations are never merged. -/
theorem due_first_match (p : CreateTaskParams) (q : UpdateTaskParams) :
    (dueFieldCount (createTaskArgs p) ≤ 1 ∧
      (strTruthy p.dueString = true →
        (createTaskArgs p).dueString = p.dueString ∧
        (createTaskArgs p).dueDate = none ∧
        (createTaskArgs p).dueDatetime = none) ∧
      (strTruthy p.dueString = false → strTruthy p.dueDate = true →
        (createTaskArgs p).dueString = none ∧
        (createTaskArgs p).dueDate = p.dueDate ∧
        (createTaskArgs p).dueDatetime = none) ∧
      (strTruthy p.dueString = false → strTruthy p.dueDate = false →
          strTruthy p.dueDatetime = true →
        (createTaskArgs p).dueString = none ∧
        (createTaskArgs p).dueDate = none ∧
        (createTaskArgs p).dueDatetime = p.dueDatetime)) ∧
    (dueFieldCount (updateTaskArgs q) ≤ 1 ∧
      (strTruthy q.dueString = true →
        (updateTaskArgs q).dueString = q.dueString ∧
        (updateTaskArgs q).dueDate = none ∧
        (updateTaskArgs q).dueDatetime = none) ∧
      (strTruthy q.dueString = false → strTruthy q.dueDate = true →
        (updateTaskArgs q).dueString = none ∧
        (updateTaskArgs q).dueDate = q.dueDate ∧
        (updateTaskArgs q).dueDatetime = none) ∧
      (strTruthy q.dueString = false → strTruthy q.dueDate = false →
          strTruthy q.dueDatetime = true →
        (updateTaskArgs q).dueString = none ∧
        (updateTaskArgs q).dueDate = none ∧
        (updateTaskArgs q).dueDatetime = q.dueDatetime)) := by
  constructor
  · cases h1 : strTruthy p.dueString <;> cases h2 : strTruthy p.dueDate <;>
      cases h3 : strTruthy p.dueDatetime <;>
        simp [dueFieldCount, createTaskArgs_dueString, createTaskArgs_dueDate,
          createTaskArgs_dueDatetime, h1, h2, h3, strTruthy_isSome]
  · cases h1 : strTruthy q.dueString <;> cases h2 : strTruthy q.dueDate <;>
      cases h3 : strTruthy q.dueDatetime <;>
        simp [dueFieldCount, updateTaskArgs_dueString, updateTaskArgs_dueDate,
          updateTaskArgs_dueDatetime, h1, h2, h3, strTruthy_isSome]

/-- C6 witness: `dueString = "today"` together with `dueDate = "2030-01-01"`
forwards only the natural-language form. -/
theorem due_first_match_witness :
    (createTaskArgs
      { content := "Buy milk", dueString := some "today",
        dueDate := some "2030-01-01" }).dueString = some "today" ∧
    (createTaskArgs
      { content := "Buy milk", dueString := some "today",
        dueDate := some "2030-01-01" }).dueDate = none := by
  have h := (due_first_match
    { content := "Buy milk", dueString := some "today",
      dueDate := some "2030-01-01" } {}).1.2.1 (by decide)
  exact ⟨h.1, h.2.1⟩

/-- C7: a createTask input supplying only the required `content` field
produces an outgoing object whose only present field is `content`; every
optional field is omitted (`none`), never sent as null. -/
theorem createTask_content_only (content : String) :
    createTaskArgs { content := content } = { content := some content } := rfl

/-- C8 (counterexample): createTask drops a present-but-falsy assignee:
with `assigneeId = some ""` the outgoing object's `assigneeId` is absent,
so "forwarded even when falsy" fails on the createTask path. -/
theorem createTask_falsy_assignee_dropped :
    (createTaskArgs { content := "x", assigneeId := some "" }).assigneeId
      = none := by
  decide

/-- C8 (amended): updateTask forwards `assigneeId` whenever the field is
present, even when falsy (empty), so an explicitly cleared assignee is
distinguished from an unset one; createTask, however, forwards `assigneeId`
only when it is truthy and omits a present-but-empty value. -/
theorem assignee_forwarding (p : CreateTaskParams) (q : UpdateTaskParams) :
    (q.assigneeId.isSome = true →
      (updateTaskArgs q).assigneeId = q.assigneeId) ∧
    (strTruthy p.assigneeId = true →
      (createTaskArgs p).assigneeId = p.assigneeId) ∧
    (p.assigneeId = some "" → (createTaskArgs p).assigneeId = none) := by
  refine ⟨?_, ?_, ?_⟩
  · intro h
    simp [updateTaskArgs_assigneeId, h]
  · intro h
    simp [createTaskArgs_assigneeId, h]
  · intro h
    have he : strTruthy (some "") = false := by decide
    rw [createTaskArgs_assigneeId, h, he]
    simp

/-- C8 witness: an explicitly cleared (empty) assignee is forwarded by
updateTask and a truthy one by createTask. -/
theorem assignee_forwarding_witness :
    (updateTaskArgs { assigneeId := some "" }).assigneeId = some "" ∧
    (createTaskArgs { content := "x", assigneeId := some "u1" }).assigneeId
      = some "u1" := by
  constructor
  · exact (assignee_forwarding { content := "x" } { assigneeId := some "" }).1 rfl
  · exact (assignee_forwarding { content := "x", assigneeId := some "u1" } {}).2.1
      (by decide)

/-- The optional attachment object of the createComment tool. -/
structure CommentAttachment where
  fileName : Option String := none
  fileUrl : String
  fileType : Option String := none
  resourceType : Option String := none
deriving DecidableEq

/-- Input of the `createComment` tool. -/
structure CreateCommentParams where
  content : String
  taskId : Option String := none
  projectId : Option String := none
  attachment : Option CommentAttachment := none
deriving DecidableEq

/-- Input of the `listComments` tool. -/
structure ListCommentsParams where
  taskId : Option String := none
  projectId : Option String := none
deriving DecidableEq

/-- The outgoing argument object (`commentArgs`) of createComment,
and the query object of listComments' `getComments` call.  A `none` field
is absent from the JavaScript object. -/
structure CommentArgs where
  content : Option String := none
  taskId : Option String := none
  projectId : Option String := none
  attachment : Option CommentAttachment := none
deriving DecidableEq

/-- Argument shaping of the `createComment` handler (the `commentArgs`
object built after the guard): `content` always, then `taskId` if truthy,
else `projectId` if truthy, then the attachment if present. -/
def createCommentArgs (p : CreateCommentParams) : CommentArgs :=
  let a : CommentArgs := { content := some p.content }
  let a :=
    if strTruthy p.taskId then { a with taskId := p.taskId }
    else if strTruthy p.projectId then { a with projectId := p.projectId }
    else a
  let a := if p.attachment.isSome then { a with attachment := p.attachment } else a
  a

/-- The `createComment` handler: the cross-field guard
`if (!params.taskId && !params.projectId)` fails before any remote call;
otherwise one `addComment` call is made with `createCommentArgs`.  Returns
the tool result, the number of remote API calls issued, and the argument
object given to `addComment` when a call is made; `respText` abstracts the
serialized remote response. -/
def createComment (p : CreateCommentParams) (apiOk : Bool) (respText : String) :
    ToolResult × Nat × Option CommentArgs :=
  if !strTruthy p.taskId && !strTruthy p.projectId then
    ({ text := "Either taskId or projectId is required", isError := true },
      0, none)
  else if apiOk then
    ({ text := respText, isError := false }, 1, some (createCommentArgs p))
  else
    ({ text := "Failed to create comment", isError := true },
      1, some (createCommentArgs p))

/-- The query object of listComments' `getComments` call: keyed by `taskId`
if truthy, else by `projectId` if truthy (`none`: no call is made). -/
def listCommentsQuery (p : ListCommentsParams) : Option CommentArgs :=
  if strTruthy p.taskId then some { taskId := p.taskId }
  else if strTruthy p.projectId then some { projectId := p.projectId }
  else none

/-- The `listComments` handler: same cross-field guard, then `getComments`
is called with `listCommentsQuery`. -/
def listComments (p : ListCommentsParams) (apiOk : Bool) (respText : String) :
    ToolResult × Nat × Option CommentArgs :=
  if !strTruthy p.taskId && !strTruthy p.projectId then
    ({ text := "Either taskId or projectId is required", isError := true },
      0, none)
  else
    let q := listCommentsQuery p
    let calls := if q.isSome then 1 else 0
    if apiOk then ({ text := respText, isError := false }, calls, q)
    else ({ text := "Failed to fetch comments", isError := true }, calls, q)

/-- C1 (counterexample): the claim classifies the boundary
`expiresAt = now + 300s` as expired, but the source's strict `<` classifies
it as not expired: with `now = 0` and `expires_at = 300000` ms (= now + 300 s),
`isTokenExpired` returns `false`, not `true`. -/
theorem isTokenExpired_boundary_not_expired :
    ¬ (isTokenExpired
        { credentials := { access_token := some "tok", expires_at := some 300000 } }
        0 = true) := by
  decide

/-- C1 (amended): `isTokenExpired` is pure; it returns `false` whenever
`expires_at` is absent, regardless of the current time, and when
`expires_at = e` is present it returns `true` exactly when `e` is strictly
below `now + 300` seconds; the boundary `e = now + 300 s` is classified as
not expired. -/
theorem isTokenExpired_spec (c : NangoCredentials) (now : Int) :
    (c.credentials.expires_at = none → isTokenExpired c now = false) ∧
    (∀ e : Int, c.credentials.expires_at = some e →
      (isTokenExpired c now = true ↔ e < now + 300000)) := by
  constructor
  · intro h
    simp [isTokenExpired, h]
  · intro e h
    simp only [isTokenExpired, h, bufferTime]
    constructor
    · intro hlt
      have := of_decide_eq_true hlt
      omega
    · intro hlt
      apply decide_eq_true
      omega

/-- C1 witness: evaluating `isTokenExpired_spec` at a concrete credential. -/
theorem isTokenExpired_spec_witness :
    (isTokenExpired
      { credentials := { access_token := some "tok", expires_at := some 299999 } }
      0 = true) ∧
    (isTokenExpired
      { credentials := { access_token := some "tok", expires_at := none } }
      0 = false) := by
  refine ⟨?_, ?_⟩
  · exact ((isTokenExpired_spec
      { credentials := { access_token := some "tok", expires_at := some 299999 } }
      0).2 299999 rfl).2 (by decide)
  · exact (isTokenExpired_spec
      { credentials := { access_token := some "tok", expires_at := none } }
      0).1 rfl

/-- C3: when any of the four configuration values is missing or empty,
`getConnectionCredentials` fails with `configurationError` — which is not
`transportError` — and performs zero network calls: its event list is empty,
whatever the broker would have answered. -/
theorem getConnectionCredentials_config_guard (cfg : NangoConfig)
    (resp : BrokerResult)
    (h : strTruthy cfg.connectionId = false ∨ strTruthy cfg.integrationId = false ∨
         strTruthy cfg.baseUrl = false ∨ strTruthy cfg.secretKey = false) :
    getConnectionCredentials cfg resp =
      (Except.error AuthError.configurationError, []) ∧
    AuthError.configurationError ≠ AuthError.transportError := by
  have hv : validConfig cfg = false := by
    unfold validConfig
    rcases h with h | h | h | h <;> simp [h]
  exact ⟨by simp [getConnectionCredentials, hv], by simp⟩

/-- C3 witness: a configuration with an empty secret key, against a broker
that would have answered successfully. -/
theorem getConnectionCredentials_config_guard_witness :
    getConnectionCredentials
      { connectionId := some "c", integrationId := some "i",
        baseUrl := some "https://api.nango.dev", secretKey := some "" }
      (BrokerResult.ok { credentials := { access_token := some "tok" } }) =
      (Except.error AuthError.configurationError, []) :=
  (getConnectionCredentials_config_guard
    { connectionId := some "c", integrationId := some "i",
      baseUrl := some "https://api.nango.dev", secretKey := some "" }
    (BrokerResult.ok { credentials := { access_token := some "tok" } })
    (Or.inr (Or.inr (Or.inr (by decide))))).1

/-- C4: when the broker round trip succeeds at the HTTP level but the JSON
body has no `credentials.access_token` field, `getAccessToken` fails with
`missingTokenError`, and that failure is distinct from every
`brokerRequestError` result (callers can tell broker-unreachable apart from
broker-reachable-but-unauthorized). -/
theorem getAccessToken_missing_token (cfg : NangoConfig) (c : NangoCredentials)
    (hcfg : validConfig cfg = true)
    (htok : c.credentials.access_token = none) :
    (getAccessToken cfg (BrokerResult.ok c)).1 =
      Except.error AuthError.missingTokenError ∧
    (∀ status body, (getAccessToken cfg (BrokerResult.ok c)).1 ≠
      Except.error (AuthError.brokerRequestError status body)) := by
  have hfetch : getConnectionCredentials cfg (BrokerResult.ok c) =
      (Except.ok c, [Event.brokerFetch]) := by
    simp [getConnectionCredentials, hcfg]
  refine ⟨?_, ?_⟩
  · simp [getAccessToken, hfetch, htok]
  · intro status body
    simp [getAccessToken, hfetch, htok]

/-- C4 witness: valid configuration, HTTP-ok broker response whose body
lacks the token field. -/
theorem getAccessToken_missing_token_witness :
    (getAccessToken
      { connectionId := some "c", integrationId := some "i",
        baseUrl := some "https://api.nango.dev", secretKey := some "k" }
      (BrokerResult.ok { credentials := { access_token := none } })).1 =
      Except.error AuthError.missingTokenError :=
  (getAccessToken_missing_token
    { connectionId := some "c", integrationId := some "i",
      baseUrl := some "https://api.nango.dev", secretKey := some "k" }
    { credentials := { access_token := none } }
    (by decide) rfl).1

/-- C2: against a broker whose state does not change (every call answers the
same HTTP-ok credentials `c`) and a credential that is not (near-)expired,
two immediately successive `refreshTokenIfNeeded` invocations at the same
`now` both return `c`'s access token; each invocation performs exactly one
broker round trip (so the already-fetched token is returned without a second
fetch, and the second invocation adds only the one call a single fetch
needs). -/
theorem refreshTokenIfNeeded_roundtrip (cfg : NangoConfig)
    (c : NangoCredentials) (now : Int)
    (hcfg : validConfig cfg = true)
    (hfresh : isTokenExpired c now = false) :
    refreshTokenIfNeeded cfg (fun _ => BrokerResult.ok c) now 0 =
      (Except.ok c.credentials.access_token, [Event.brokerFetch], 1) ∧
    refreshTokenIfNeeded cfg (fun _ => BrokerResult.ok c) now 1 =
      (Except.ok c.credentials.access_token, [Event.brokerFetch], 2) := by
  have hfetch : ∀ n : Nat, getConnectionCredentials cfg
      ((fun _ => BrokerResult.ok c) n) = (Except.ok c, [Event.brokerFetch]) := by
    intro n
    simp [getConnectionCredentials, hcfg]
  constructor
  · simp [refreshTokenIfNeeded, hfetch 0, hfresh]
  · simp [refreshTokenIfNeeded, hfetch 1, hfresh]

/-- Common shape of the five bypass-path tool handlers (archiveProject,
unarchiveProject, getSharedLabels, renameSharedLabel, removeSharedLabel):
each one calls `refreshTokenIfNeeded()` and then issues one `fetch` to `url`
with the returned token as bearer.  `apiOk` is `response.ok` of that fetch;
`successText` abstracts the JSON payload serialized on success (request
bodies are not modelled — no claim concerns them).  If the refresh throws,
the catch block returns the failure result and no API request is issued. -/
def bypassToolCall (cfg : NangoConfig) (resp : Nat → BrokerResult) (now : Int)
    (apiOk : Bool) (url : String) (successText failureText : String) (n : Nat) :
    ToolResult × List Event :=
  match refreshTokenIfNeeded cfg resp now n with
  | (Except.error _, evts, _) => ({ text := failureText, isError := true }, evts)
  | (Except.ok accessToken, evts, _) =>
      let trace := evts ++ [Event.apiRequest accessToken url]
      if apiOk then ({ text := successText, isError := false }, trace)
      else ({ text := failureText, isError := true }, trace)

/-- URL of the undocumented archive endpoint. -/
def archiveUrl (projectId : String) : String :=
  "https://api.todoist.com/rest/v2/projects/" ++ projectId ++ "/archive"

/-- URL of the undocumented unarchive endpoint. -/
def unarchiveUrl (projectId : String) : String :=
  "https://api.todoist.com/rest/v2/projects/" ++ projectId ++ "/unarchive"

/-- URL built by the getSharedLabels handler: `omit_personal=true` is
appended exactly when the optional boolean argument is truthy. -/
def sharedLabelsUrl (omitPersonal : Option Bool) : String :=
  if omitPersonal = some true then
    "https://api.todoist.com/rest/v2/labels/shared?omit_personal=true"
  else
    "https://api.todoist.com/rest/v2/labels/shared"

/-- The `archiveProject` tool handler. -/
def archiveProject (cfg : NangoConfig) (resp : Nat → BrokerResult) (now : Int)
    (apiOk : Bool) (projectId : String) (n : Nat) : ToolResult × List Event :=
  bypassToolCall cfg resp now apiOk (archiveUrl projectId)
    successTrue "Failed to archive project" n

/-- The `unarchiveProject` tool handler. -/
def unarchiveProject (cfg : NangoConfig) (resp : Nat → BrokerResult) (now : Int)
    (apiOk : Bool) (projectId : String) (n : Nat) : ToolResult × List Event :=
  bypassToolCall cfg resp now apiOk (unarchiveUrl projectId)
    successTrue "Failed to unarchive project" n

/-- The `getSharedLabels` tool handler; `labelsText` abstracts the
serialized labels payload of a successful response. -/
def getSharedLabels (cfg : NangoConfig) (resp : Nat → BrokerResult) (now : Int)
    (apiOk : Bool) (labelsText : String) (omitPersonal : Option Bool) (n : Nat) :
    ToolResult × List Event :=
  bypassToolCall cfg resp now apiOk (sharedLabelsUrl omitPersonal)
    labelsText "Failed to get shared labels" n

/-- The `renameSharedLabel` tool handler (request body not modelled). -/
def renameSharedLabel (cfg : NangoConfig) (resp : Nat → BrokerResult) (now : Int)
    (apiOk : Bool) (n : Nat) : ToolResult × List Event :=
  bypassToolCall cfg resp now apiOk
    "https://api.todoist.com/rest/v2/labels/shared/rename"
    successTrue "Failed to rename shared label" n

/-- The `removeSharedLabel` tool handler (request body not modelled). -/
def removeSharedLabel (cfg : NangoConfig) (resp : Nat → BrokerResult) (now : Int)
    (apiOk : Bool) (n : Nat) : ToolResult × List Event :=
  bypassToolCall cfg resp now apiOk
    "https://api.todoist.com/rest/v2/labels/shared/remove"
    successTrue "Failed to remove shared label" n

/-- Every event a `getConnectionCredentials` invocation emits is a broker
fetch. -/
lemma getConnectionCredentials_events_fetch (cfg : NangoConfig)
    (resp : BrokerResult) :
    ∀ e ∈ (getConnectionCredentials cfg resp).2, e = Event.brokerFetch := by
  unfold getConnectionCredentials
  by_cases h : validConfig cfg <;> cases resp <;> simp [h]

/-- A successful `getConnectionCredentials` invocation emits exactly one
broker fetch. -/
lemma getConnectionCredentials_ok_events (cfg : NangoConfig)
    (resp : BrokerResult) (c : NangoCredentials) (evts : List Event)
    (h : getConnectionCredentials cfg resp = (Except.ok c, evts)) :
    evts = [Event.brokerFetch] := by
  unfold getConnectionCredentials at h
  by_cases hv : validConfig cfg <;> cases resp <;> simp [hv] at h <;> tauto

/-- Every event a `refreshTokenIfNeeded` invocation emits is a broker
fetch. -/
lemma refreshTokenIfNeeded_events_fetch (cfg : NangoConfig)
    (resp : Nat → BrokerResult) (now : Int) (n : Nat) :
    ∀ e ∈ (refreshTokenIfNeeded cfg resp now n).2.1, e = Event.brokerFetch := by
  rcases hg : getConnectionCredentials cfg (resp n) with ⟨r, evts⟩
  have h1 := getConnectionCredentials_events_fetch cfg (resp n)
  rw [hg] at h1
  cases r with
  | error e =>
      simpa [refreshTokenIfNeeded, hg] using h1
  | ok c =>
      by_cases hexp : isTokenExpired c now
      · rcases hg2 : getConnectionCredentials cfg (resp (n + evts.length)) with ⟨r2, evts2⟩
        have h2 := getConnectionCredentials_events_fetch cfg (resp (n + evts.length))
        rw [hg2] at h2
        cases r2 <;>
          · simp only [refreshTokenIfNeeded, hg, hexp, if_true, hg2]
            intro e he
            rcases List.mem_append.mp he with he | he
            · exact h1 e he
            · exact h2 e he
      · simpa [refreshTokenIfNeeded, hg, hexp] using h1

/-- A `refreshTokenIfNeeded` invocation that returns a token performed at
least one broker fetch. -/
lemma refreshTokenIfNeeded_ok_ne_nil (cfg : NangoConfig)
    (resp : Nat → BrokerResult) (now : Int) (n : Nat)
    (tok : Option String) (evts : List Event) (m : Nat)
    (h : refreshTokenIfNeeded cfg resp now n = (Except.ok tok, evts, m)) :
    evts ≠ [] := by
  rcases hg : getConnectionCredentials cfg (resp n) with ⟨r, evts1⟩
  cases r with
  | error e =>
      simp [refreshTokenIfNeeded, hg] at h
  | ok c =>
      have h1 : evts1 = [Event.brokerFetch] :=
        getConnectionCredentials_ok_events cfg (resp n) c evts1 hg
      subst h1
      by_cases hexp : isTokenExpired c now
      · rcases hg2 : getConnectionCredentials cfg (resp (n + 1)) with ⟨r2, evts2⟩
        cases r2 with
        | error e =>
            simp [refreshTokenIfNeeded, hg, hexp, hg2] at h
        | ok c2 =>
            simp only [refreshTokenIfNeeded, hg, hexp, if_true, List.length_cons,
              List.length_nil, hg2, Prod.mk.injEq] at h
            obtain ⟨-, h2, -⟩ := h
            rw [← h2]
            simp
      · simp only [refreshTokenIfNeeded, hg, hexp, if_false, Bool.false_eq_true,
          Prod.mk.injEq] at h
        obtain ⟨-, h2, -⟩ := h
        rw [← h2]
        simp

/-- Trace shape of one bypass-path tool handler. -/
lemma bypassToolCall_trace (cfg : NangoConfig) (resp : Nat → BrokerResult)
    (now : Int) (apiOk : Bool) (url successText failureText : String) (n : Nat) :
    (∀ tok evts m,
      refreshTokenIfNeeded cfg resp now n = (Except.ok tok, evts, m) →
      (bypassToolCall cfg resp now apiOk url successText failureText n).2 =
        evts ++ [Event.apiRequest tok url]) ∧
    (∀ err evts m,
      refreshTokenIfNeeded cfg resp now n = (Except.error err, evts, m) →
      (bypassToolCall cfg resp now apiOk url successText failureText n).2 = evts) := by
  constructor
  · intro tok evts m h
    cases apiOk <;> simp [bypassToolCall, h]
  · intro err evts m h
    cases apiOk <;> simp [bypassToolCall, h]

/-- C5: every invocation of a bypass-path tool (archiveProject,
unarchiveProject, getSharedLabels, renameSharedLabel, removeSharedLabel)
performs a fresh `refreshTokenIfNeeded` strictly before its HTTP request:
whenever the refresh of that invocation returns token `tok`, the
invocation's trace is the refresh's (nonempty, all-broker-fetch) events
followed by exactly one API request bearing `tok` at the operation's URL;
and when the refresh fails, no API request is issued at all. -/
theorem bypass_refresh_precedes_request (cfg : NangoConfig)
    (resp : Nat → BrokerResult) (now : Int) (apiOk : Bool)
    (projectId labelsText : String) (omitPersonal : Option Bool) (n : Nat) :
    (∀ tok evts m,
      refreshTokenIfNeeded cfg resp now n = (Except.ok tok, evts, m) →
      evts ≠ [] ∧ (∀ e ∈ evts, e = Event.brokerFetch) ∧
      (archiveProject cfg resp now apiOk projectId n).2 =
        evts ++ [Event.apiRequest tok (archiveUrl projectId)] ∧
      (unarchiveProject cfg resp now apiOk projectId n).2 =
        evts ++ [Event.apiRequest tok (unarchiveUrl projectId)] ∧
      (getSharedLabels cfg resp now apiOk labelsText omitPersonal n).2 =
        evts ++ [Event.apiRequest tok (sharedLabelsUrl omitPersonal)] ∧
      (renameSharedLabel cfg resp now apiOk n).2 =
        evts ++ [Event.apiRequest tok
          "https://api.todoist.com/rest/v2/labels/shared/rename"] ∧
      (removeSharedLabel cfg resp now apiOk n).2 =
        evts ++ [Event.apiRequest tok
          "https://api.todoist.com/rest/v2/labels/shared/remove"]) ∧
    (∀ err evts m,
      refreshTokenIfNeeded cfg resp now n = (Except.error err, evts, m) →
      (archiveProject cfg resp now apiOk projectId n).2 = evts ∧
      (unarchiveProject cfg resp now apiOk projectId n).2 = evts ∧
      (getSharedLabels cfg resp now apiOk labelsText omitPersonal n).2 = evts ∧
      (renameSharedLabel cfg resp now apiOk n).2 = evts ∧
      (removeSharedLabel cfg resp now apiOk n).2 = evts ∧
      ∀ bearer url, Event.apiRequest bearer url ∉ evts) := by
  constructor
  · intro tok evts m h
    refine ⟨refreshTokenIfNeeded_ok_ne_nil cfg resp now n tok evts m h, ?_, ?_, ?_, ?_, ?_, ?_⟩
    · intro e he
      have := refreshTokenIfNeeded_events_fetch cfg resp now n
      rw [h] at this
      exact this e he
    · exact (bypassToolCall_trace cfg resp now apiOk (archiveUrl projectId)
        successTrue "Failed to archive project" n).1 tok evts m h
    · exact (bypassToolCall_trace cfg resp now apiOk (unarchiveUrl projectId)
        successTrue "Failed to unarchive project" n).1 tok evts m h
    · exact (bypassToolCall_trace cfg resp now apiOk (sharedLabelsUrl omitPersonal)
        labelsText "Failed to get shared labels" n).1 tok evts m h
    · exact (bypassToolCall_trace cfg resp now apiOk
        "https://api.todoist.com/rest/v2/labels/shared/rename"
        successTrue "Failed to rename shared label" n).1 tok evts m h
    · exact (bypassToolCall_trace cfg resp now apiOk
        "https://api.todoist.com/rest/v2/labels/shared/remove"
        successTrue "Failed to remove shared label" n).1 tok evts m h
  · intro err evts m h
    have hall : ∀ e ∈ evts, e = Event.brokerFetch := by
      intro e he
      have := refreshTokenIfNeeded_events_fetch cfg resp now n
      rw [h] at this
      exact this e he
    refine ⟨?_, ?_, ?_, ?_, ?_, ?_⟩
    · exact (bypassToolCall_trace cfg resp now apiOk (archiveUrl projectId)
        successTrue "Failed to archive project" n).2 err evts m h
    · exact (bypassToolCall_trace cfg resp now apiOk (unarchiveUrl projectId)
        successTrue "Failed to unarchive project" n).2 err evts m h
    · exact (bypassToolCall_trace cfg resp now apiOk (sharedLabelsUrl omitPersonal)
        labelsText "Failed to get shared labels" n).2 err evts m h
    · exact (bypassToolCall_trace cfg resp now apiOk
        "https://api.todoist.com/rest/v2/labels/shared/rename"
        successTrue "Failed to rename shared label" n).2 err evts m h
    · exact (bypassToolCall_trace cfg resp now apiOk
        "https://api.todoist.com/rest/v2/labels/shared/remove"
        successTrue "Failed to remove shared label" n).2 err evts m h
    · intro bearer url hmem
      exact Event.noConfusion (hall _ hmem)

/-- C5 witness: for a valid configuration and a constant HTTP-ok broker, the
archive-project trace is one broker fetch followed by the bearer request. -/
theorem bypass_refresh_precedes_request_witness :
    (archiveProject
      { connectionId := some "c", integrationId := some "i",
        baseUrl := some "https://api.nango.dev", secretKey := some "k" }
      (fun _ => BrokerResult.ok { credentials := { access_token := some "tok" } })
      0 true "p1" 0).2 =
      [Event.brokerFetch,
        Event.apiRequest (some "tok") (archiveUrl "p1")] :=
  ((bypass_refresh_precedes_request
    { connectionId := some "c", integrationId := some "i",
      baseUrl := some "https://api.nango.dev", secretKey := some "k" }
    (fun _ => BrokerResult.ok { credentials := { access_token := some "tok" } })
    0 true "p1" "lbls" none 0).1
    (some "tok") [Event.brokerFetch] 1 rfl).2.2.1

/-- A present nonempty optional string is truthy. -/
lemma strTruthy_some {t : String} (h : t ≠ "") : strTruthy (some t) = true := by
  have he : t.isEmpty = false := by
    cases hv : t.isEmpty
    · rfl
    · exact absurd ((String.isEmpty_iff t).mp hv) h
  simp [strTruthy, he]

/-- The `taskId` of the outgoing createComment object. -/
lemma createCommentArgs_taskId (p : CreateCommentParams) :
    (createCommentArgs p).taskId =
      if strTruthy p.taskId then p.taskId else none := by
  cases h1 : strTruthy p.taskId <;> cases h2 : strTruthy p.projectId <;>
    simp [createCommentArgs, h1, h2, apply_ite CommentArgs.taskId]

/-- The `projectId` of the outgoing createComment object. -/
lemma createCommentArgs_projectId (p : CreateCommentParams) :
    (createCommentArgs p).projectId =
      if strTruthy p.taskId then none
      else if strTruthy p.projectId then p.projectId else none := by
  cases h1 : strTruthy p.taskId <;> cases h2 : strTruthy p.projectId <;>
    simp [createCommentArgs, h1, h2, apply_ite CommentArgs.projectId]

/-- C9: a createComment or listComments input supplying neither `taskId` nor
`projectId` yields the "Either taskId or projectId is required" error result
with zero remote API calls — the remote API is never contacted. -/
theorem comment_missing_identifier (p : CreateCommentParams)
    (q : ListCommentsParams) (apiOk : Bool) (respText : String)
    (hp1 : p.taskId = none) (hp2 : p.projectId = none)
    (hq1 : q.taskId = none) (hq2 : q.projectId = none) :
    createComment p apiOk respText =
      ({ text := "Either taskId or projectId is required", isError := true },
        0, none) ∧
    listComments q apiOk respText =
      ({ text := "Either taskId or projectId is required", isError := true },
        0, none) := by
  constructor
  · simp [createComment, hp1, hp2, strTruthy]
  · simp [listComments, hq1, hq2, strTruthy]

/-- C9 witness: neither identifier supplied. -/
theorem comment_missing_identifier_witness :
    createComment { content := "hi" } true "resp" =
      ({ text := "Either taskId or projectId is required", isError := true },
        0, none) :=
  (comment_missing_identifier { content := "hi" } {} true "resp"
    rfl rfl rfl rfl).1

/-- C10: when both identifiers are supplied (a usable nonempty `taskId`
together with any `projectId`), the outgoing createComment object and the
listComments query are keyed by `taskId` only — the `projectId` is silently
dropped; and for every input, the two identifiers are never both present in
the outgoing object. -/
theorem comment_taskId_wins (p : CreateCommentParams) (q : ListCommentsParams)
    (apiOk : Bool) (respText : String) :
    (∀ t pj, p.taskId = some t → t ≠ "" → p.projectId = some pj →
      (createComment p apiOk respText).2.2 = some (createCommentArgs p) ∧
      (createCommentArgs p).taskId = some t ∧
      (createCommentArgs p).projectId = none) ∧
    (¬((createCommentArgs p).taskId.isSome = true ∧
       (createCommentArgs p).projectId.isSome = true)) ∧
    (∀ t pj, q.taskId = some t → t ≠ "" → q.projectId = some pj →
      (listComments q apiOk respText).2.2 = some { taskId := some t }) ∧
    (∀ a, (listComments q apiOk respText).2.2 = some a →
      ¬(a.taskId.isSome = true ∧ a.projectId.isSome = true)) := by
  refine ⟨?_, ?_, ?_, ?_⟩
  · intro t pj ht htne hpj
    have hst : strTruthy p.taskId = true := by rw [ht]; exact strTruthy_some htne
    refine ⟨?_, ?_, ?_⟩
    · cases apiOk <;> simp [createComment, hst]
    · rw [createCommentArgs_taskId, hst]
      simp [ht]
    · rw [createCommentArgs_projectId, hst]
      simp
  · rw [createCommentArgs_taskId, createCommentArgs_projectId]
    cases h1 : strTruthy p.taskId <;> cases h2 : strTruthy p.projectId <;> simp
  · intro t pj ht htne hpj
    have hst : strTruthy (some t) = true := strTruthy_some htne
    cases apiOk <;> simp [listComments, listCommentsQuery, ht, hst]
  · intro a ha
    cases h1 : strTruthy q.taskId <;> cases h2 : strTruthy q.projectId <;>
      cases apiOk <;>
        simp [listComments, listCommentsQuery, h1, h2] at ha <;>
          simp [← ha]

/-- C10 witness: both identifiers supplied; only `taskId` is forwarded. -/
theorem comment_taskId_wins_witness :
    (createComment
      { content := "hi", taskId := some "t1", projectId := some "p1" }
      true "resp").2.2 =
      some (createCommentArgs
        { content := "hi", taskId := some "t1", projectId := some "p1" }) ∧
    (createCommentArgs
      { content := "hi", taskId := some "t1", projectId := some "p1" }).taskId
      = some "t1" ∧
    (createCommentArgs
      { content := "hi", taskId := some "t1", projectId := some "p1" }).projectId
      = none :=
  (comment_taskId_wins
    { content := "hi", taskId := some "t1", projectId := some "p1" }
    {} true "resp").1 "t1" "p1" rfl (by decide) rfl

/-- C2 witness: a never-expiring credential against a constant broker. -/
theorem refreshTokenIfNeeded_roundtrip_witness :
    refreshTokenIfNeeded
      { connectionId := some "c", integrationId := some "i",
        baseUrl := some "https://api.nango.dev", secretKey := some "k" }
      (fun _ => BrokerResult.ok { credentials := { access_token := some "tok" } })
      0 0 =
      (Except.ok (some "tok"), [Event.brokerFetch], 1) :=
  (refreshTokenIfNeeded_roundtrip
    { connectionId := some "c", integrationId := some "i",
      baseUrl := some "https://api.nango.dev", secretKey := some "k" }
    { credentials := { access_token := some "tok" } }
    0 (by decide) rfl).1
